import Mathlib

/-!
# ESP32 weather station: connection-gated sampling and power control

A shallow embedding of `src/main.cpp`.  The global variables of the sketch are
the fields of `State`; every procedure of the sketch is a function from a state
to a `Run`, the state it leaves together with the list of externally visible
effects it performed, in program order.

Modelling decisions:

* `float` values are an abstract type `α`; the sensor driver and the
  float-to-string conversion are the fields of `Platform α`.
* The result of one sensor acquisition and the outcome of
  `xTaskCreatePinnedToCore` are inputs supplied by the environment.
* The connect / disconnect callbacks run on the wireless stack's own task.  In
  the model they fire between the steps of the system and while a procedure
  sits in `delay`; the callbacks delivered during each delay are an input of
  the procedure that contains it.
* `esp_deep_sleep_start` does not return: it sets `asleep`, and nothing is
  executed from a state that is asleep.
-/

namespace WeatherStation

/-! ## Data model -/

/-- Output level of a GPIO line (`LOW` / `HIGH`). -/
inductive PinLevel where
  | LOW
  | HIGH
  deriving DecidableEq, Repr

/-- The comfort classes of the sensor driver, as `getTemperature` tells them
apart: the nine case labels of its `switch`, and `Comfort_Other` for any value
that reaches the `default` branch. -/
inductive ComfortState where
  | Comfort_OK
  | Comfort_TooHot
  | Comfort_TooCold
  | Comfort_TooDry
  | Comfort_TooHumid
  | Comfort_HotAndHumid
  | Comfort_HotAndDry
  | Comfort_ColdAndHumid
  | Comfort_ColdAndDry
  | Comfort_Other
  deriving DecidableEq, Repr

/-- The two callbacks of `MyServerCallbacks`. -/
inductive BleEvent where
  | connect
  | disconnect
  deriving DecidableEq, Repr

/-- Functions that can be attached to a `Ticker`. -/
inductive TickerCallback where
  | triggerGetTemp
  deriving DecidableEq, Repr

/-- Externally visible actions of the sketch. -/
inductive Effect where
  | serialBegin (baud : Nat)
  | serialPrintln (msg : String)
  | pinModeOutput (pin : Nat)
  | digitalWrite (pin : Nat) (level : PinLevel)
  | delay (ms : Nat)
  | dhtSetup (pin : Nat)
  | dhtGetTempAndHumidity
  | xTaskCreatePinnedToCore (name : String) (stackWords priority core : Nat)
  | tickerAttach (seconds : Nat) (callback : TickerCallback)
  | xTaskResumeFromISR (handle : Nat)
  | vTaskSuspend
  | bleDeviceInit (name : String)
  | createService (uuid : String)
  | createCharacteristic (uuid : String)
  | serviceStart
  | advertisingStart
  | advertisingStop
  | setValue (value : String)
  | notify
  | esp_sleep_enable_timer_wakeup (microseconds : Nat)
  | esp_deep_sleep_start
  deriving DecidableEq, Repr

/-- The global variables of the sketch and the hardware state they control. -/
structure State where
  /-- Handle of the sampling worker, `none` for `NULL`. -/
  tempTaskHandle : Option Nat
  /-- Period in seconds and callback of `tempTicker` when it is attached. -/
  tempTicker : Option (Nat × TickerCallback)
  cf : ComfortState
  tasksEnabled : Bool
  deviceConnected : Bool
  oldDeviceConnected : Bool
  /-- Level last written to `GPIO_SENSOR_ENABLE`, `none` before any write. -/
  sensorEnable : Option PinLevel
  /-- Level last written to `GPIO_LED_GREEN`, `none` before any write. -/
  led : Option PinLevel
  /-- Value stored in the characteristic `pCharactDHT22`. -/
  charValue : String
  advertising : Bool
  /-- Wake-up timer in microseconds once armed. -/
  wakeTimer : Option Nat
  /-- Set by `esp_deep_sleep_start`. -/
  asleep : Bool
  deriving DecidableEq, Repr

/-- What the environment answers to one sensor acquisition:
`dht.getTempAndHumidity()`, `dht.getStatus()` and `dht.getStatusString()`. -/
structure DhtSample (α : Type) where
  temperature : α
  humidity : α
  status : Nat
  statusString : String

/-- Library functions the sketch calls on `float` values. -/
structure Platform (α : Type) where
  /-- The conversion `String(float)`. -/
  render : α → String
  computeHeatIndex : α → α → α
  computeDewPoint : α → α → α
  /-- The class `dht.getComfortRatio` stores into its first argument. -/
  comfortOf : α → α → ComfortState

/-- A state together with the effects performed to reach it. -/
abbrev Run := State × List Effect

/-- Sequential composition: continue from the state reached, append the effects. -/
def Run.andThen (r : Run) (f : State → Run) : Run :=
  ((f r.1).1, r.2 ++ (f r.1).2)

/-! ## Constants -/

def dhtPin : Nat := 16
def SERVICE_UUID : String := "c8d1d262-861f-5082-947e-f383a259aadd"
def CHARAC_DHT_UUID : String := "b0f332a8-a5aa-4f3a-bb43-f99e8811ae01"
def DEEP_SLEEP_DURATION : Int := 15
def GPIO_LED_GREEN : Nat := 22
def GPIO_SENSOR_ENABLE : Nat := 17

/-- Values of the globals at reset, as their initialisers give them. -/
def initState : State :=
  { tempTaskHandle := none
    tempTicker := none
    cf := .Comfort_OK
    tasksEnabled := true
    deviceConnected := false
    oldDeviceConnected := false
    sensorEnable := none
    led := none
    charValue := ""
    advertising := false
    wakeTimer := none
    asleep := false }

/-! ## Primitive operations -/

/-- Wrap-around of a signed 64-bit (`long long`) result. -/
def wrapInt64 (x : Int) : Int :=
  (x + 2 ^ 63) % 2 ^ 64 - 2 ^ 63

/-- Conversion of a `long long` to the `uint64_t` argument of the wake-up timer. -/
def toUInt64 (x : Int) : Nat :=
  (x % 2 ^ 64).toNat

/-- The expression `1000000LL * DEEP_SLEEP_DURATION`. -/
def sleepMicroseconds : Nat :=
  toUInt64 (wrapInt64 (1000000 * DEEP_SLEEP_DURATION))

def println (msg : String) (s : State) : Run :=
  (s, [.serialPrintln msg])

def digitalWrite (pin : Nat) (level : PinLevel) (s : State) : Run :=
  (if pin = GPIO_SENSOR_ENABLE then { s with sensorEnable := some level }
   else if pin = GPIO_LED_GREEN then { s with led := some level }
   else s,
   [.digitalWrite pin level])

/-- Callback `MyServerCallbacks::onConnect`. -/
def onConnect (s : State) : Run :=
  ({ s with deviceConnected := true }, [.serialPrintln "-->[BLE] onConnect"])

/-- Callback `MyServerCallbacks::onDisconnect`. -/
def onDisconnect (s : State) : Run :=
  ({ s with deviceConnected := false }, [.serialPrintln "-->[BLE] onDisconnect"])

def callback : BleEvent → State → Run
  | .connect, s => onConnect s
  | .disconnect, s => onDisconnect s

/-- Callbacks fired one after the other. -/
def deliver : List BleEvent → State → Run
  | [], s => (s, [])
  | e :: es, s => (callback e s).andThen (deliver es)

/-- The call `delay(ms)`, with the callbacks that fire while it waits. -/
def delay (ms : Nat) (during : List BleEvent) (s : State) : Run :=
  Run.andThen (s, [.delay ms]) (deliver during)

/-! ## Procedures of the sketch -/

def blinkOnboardLed (during : List BleEvent) (s : State) : Run :=
  ((digitalWrite GPIO_LED_GREEN .LOW s).andThen (delay 50 during)).andThen
    (digitalWrite GPIO_LED_GREEN .HIGH)

/-- Procedure `initTemp`; `created` is the handle `xTaskCreatePinnedToCore`
stores on success, `none` when the task could not be created (the handle
variable is then left as it was). -/
def initTemp (created : Option Nat) (s : State) : Run × Bool :=
  let r0 : Run :=
    (s, [.dhtSetup dhtPin, .serialPrintln "-->[DHT] initiated",
         .xTaskCreatePinnedToCore "tempTask " 4000 5 1])
  let r1 : Run :=
    match created with
    | some h => ({ r0.1 with tempTaskHandle := some h }, r0.2)
    | none => r0
  if r1.1.tempTaskHandle = none then
    (r1.andThen (println "--->[E] Failed to start task for temperature update"), false)
  else
    (r1.andThen (fun s1 =>
      ({ s1 with tempTicker := some (10, .triggerGetTemp) },
       [.tickerAttach 10 .triggerGetTemp])), true)

def triggerGetTemp (s : State) : Run :=
  match s.tempTaskHandle with
  | some h => (s, [.xTaskResumeFromISR h])
  | none => (s, [])

def comfortStatusOf : ComfortState → String
  | .Comfort_OK => "Comfort_OK"
  | .Comfort_TooHot => "Comfort_TooHot"
  | .Comfort_TooCold => "Comfort_TooCold"
  | .Comfort_TooDry => "Comfort_TooDry"
  | .Comfort_TooHumid => "Comfort_TooHumid"
  | .Comfort_HotAndHumid => "Comfort_HotAndHumid"
  | .Comfort_HotAndDry => "Comfort_HotAndDry"
  | .Comfort_ColdAndHumid => "Comfort_ColdAndHumid"
  | .Comfort_ColdAndDry => "Comfort_ColdAndDry"
  | .Comfort_Other => "Unknown:"

/-- The string `output` built in the publish step of `getTemperature`. -/
def outputOf {α : Type} (P : Platform α) (x : DhtSample α) : String :=
  let heatIndex := P.computeHeatIndex x.temperature x.humidity
  let dewPoint := P.computeDewPoint x.temperature x.humidity
  let output := "" ++ P.render x.temperature ++ ";"
  let output := output ++ P.render x.humidity ++ ";"
  let output := output ++ P.render dewPoint ++ ";"
  let output := output ++ P.render heatIndex
  output

/-- The publish step: `setValue` followed by `notify`. -/
def publish (output : String) (s : State) : Run :=
  ({ s with charValue := output }, [.setValue output, .notify])

/-- Procedure `getTemperature`; `x` is the acquisition the driver returns and
`during` the callbacks that fire while the LED pulse waits. -/
def getTemperature {α : Type} (P : Platform α) (x : DhtSample α)
    (during : List BleEvent) (s : State) : Run × Bool :=
  let r0 : Run := (s, [.dhtGetTempAndHumidity])
  if x.status ≠ 0 then
    (r0.andThen (println ("--->[E] DHT22 error status: " ++ x.statusString)), false)
  else
    let heatIndex := P.computeHeatIndex x.temperature x.humidity
    let dewPoint := P.computeDewPoint x.temperature x.humidity
    let r1 := r0.andThen (fun s1 =>
      ({ s1 with cf := P.comfortOf x.temperature x.humidity }, []))
    let comfortStatus := comfortStatusOf r1.1.cf
    let r2 := r1.andThen (println
      ("-->[DHT] T:" ++ P.render x.temperature ++
       " H:" ++ P.render x.humidity ++
       " I:" ++ P.render heatIndex ++
       " D:" ++ P.render dewPoint ++
       " " ++ comfortStatus))
    let r3 := if r2.1.deviceConnected then r2.andThen (publish (outputOf P x)) else r2
    (r3.andThen (blinkOnboardLed during), true)

/-- One pass of the body of the `while (1)` loop of `tempTask`. -/
def tempTaskPass {α : Type} (P : Platform α) (x : DhtSample α)
    (during : List BleEvent) (s : State) : Run :=
  let r : Run := if s.tasksEnabled then (getTemperature P x during s).1 else (s, [])
  r.andThen (fun s1 => (s1, [.vTaskSuspend]))

def enableSensor (s : State) : Run :=
  digitalWrite GPIO_SENSOR_ENABLE .HIGH s

def disableSensor (s : State) : Run :=
  digitalWrite GPIO_SENSOR_ENABLE .HIGH s

/-- Procedure `gotToSuspend`; `during` are the callbacks that fire in its
`delay(8)`. -/
def gotToSuspend (during : List BleEvent) (s : State) : Run :=
  ((((println "-->[ESP] suspending.." s).andThen
    (fun s1 => ({ s1 with advertising := false }, [.advertisingStop]))).andThen
    disableSensor).andThen
    (delay 8 during)).andThen
    (fun s1 =>
      ({ s1 with wakeTimer := some sleepMicroseconds, asleep := true },
       [.esp_sleep_enable_timer_wakeup sleepMicroseconds, .esp_deep_sleep_start]))

def bleServerInit (s : State) : Run :=
  ({ s with advertising := true },
   [.bleDeviceInit "ESP32_DTH22",
    .createService SERVICE_UUID,
    .createCharacteristic CHARAC_DHT_UUID,
    .serviceStart,
    .serialPrintln "-->[BLE] start advertising",
    .advertisingStart,
    .serialPrintln "-->[BLE] GATT server ready. (Waiting a client to notify)"])

/-- Inputs of one `bleLoop` iteration. -/
structure LoopEnv where
  /-- Callbacks fired during the `delay(8)` of `gotToSuspend`. -/
  suspendDelay : List BleEvent
  /-- Callbacks fired during the `delay(1000)` after `enableSensor`. -/
  settleDelay : List BleEvent
  /-- Outcome of `xTaskCreatePinnedToCore` in `initTemp`. -/
  created : Option Nat
  deriving DecidableEq, Repr

/-- Procedure `bleLoop`.  The first `if` hands over to `gotToSuspend`, which
does not return; the second `if` is reached only when the device is still
awake. -/
def bleLoop (env : LoopEnv) (s : State) : Run :=
  let r1 : Run :=
    if !s.deviceConnected && s.oldDeviceConnected then
      gotToSuspend env.suspendDelay { s with oldDeviceConnected := s.deviceConnected }
    else (s, [])
  if r1.1.asleep then r1
  else
    r1.andThen (fun s1 =>
      if s1.deviceConnected && !s1.oldDeviceConnected then
        ((enableSensor { s1 with oldDeviceConnected := s1.deviceConnected }).andThen
          (delay 1000 env.settleDelay)).andThen
          (fun s2 => (initTemp env.created s2).1)
      else (s1, []))

/-- Inputs of `setup`. -/
structure SetupEnv where
  /-- Callbacks fired during the bring-up `delay(1000)`. -/
  bringUp : List BleEvent
  /-- Callbacks fired during the `delay(8)` of `gotToSuspend`. -/
  suspendDelay : List BleEvent
  deriving DecidableEq, Repr

/-- The part of `setup` up to and including the bring-up delay. -/
def setupBringUp (env : SetupEnv) (s : State) : Run :=
  ((((Run.andThen (s, [.serialBegin 115200, .serialPrintln "",
        .serialPrintln "==>[DHT22 ESP32]<==", .pinModeOutput GPIO_LED_GREEN])
      (digitalWrite GPIO_LED_GREEN .HIGH)).andThen
      (fun s1 => (s1, [.pinModeOutput GPIO_SENSOR_ENABLE]))).andThen
      bleServerInit).andThen
      (delay 1000 env.bringUp))

/-- Procedure `setup`. -/
def setup (env : SetupEnv) (s : State) : Run :=
  (setupBringUp env s).andThen (fun s1 =>
    if !s1.deviceConnected then gotToSuspend env.suspendDelay s1 else (s1, []))

/-! ## The running system -/

/-- What can happen after `setup`: a callback of the wireless stack, one
iteration of `loop`, an expiry of `tempTicker`, one activation of the worker. -/
inductive Step (α : Type) where
  | ble (e : BleEvent)
  | loop (env : LoopEnv)
  | tick
  | worker (x : DhtSample α) (during : List BleEvent)

/-- One step of the system; nothing runs once the device is asleep, the ticker
calls back only when attached and the worker runs only when it exists. -/
def step {α : Type} (P : Platform α) (st : Step α) (s : State) : Run :=
  if s.asleep then (s, [])
  else
    match st with
    | .ble e => callback e s
    | .loop env => bleLoop env s
    | .tick =>
      match s.tempTicker with
      | some (_, .triggerGetTemp) => triggerGetTemp s
      | none => (s, [])
    | .worker x during =>
      match s.tempTaskHandle with
      | some _ => tempTaskPass P x during s
      | none => (s, [])

def run {α : Type} (P : Platform α) : List (Step α) → State → Run
  | [], s => (s, [])
  | st :: rest, s => (step P st s).andThen (run P rest)

/-- A whole execution from reset: `setup`, then the given steps. -/
def boot {α : Type} (P : Platform α) (env : SetupEnv) (steps : List (Step α)) : Run :=
  (setup env initState).andThen (run P steps)

/-! ## Auxiliary definitions -/

/-- The line a callback writes to the serial log. -/
def callbackLog : BleEvent → Effect
  | .connect => .serialPrintln "-->[BLE] onConnect"
  | .disconnect => .serialPrintln "-->[BLE] onDisconnect"

/-- Value of `deviceConnected` after the given callbacks. -/
def connectedAfter : List BleEvent → Bool → Bool
  | [], b => b
  | .connect :: es, _ => connectedAfter es true
  | .disconnect :: es, _ => connectedAfter es false

/-- Effects that belong to the sleep sequence of `gotToSuspend`. -/
def isSleepEffect : Effect → Bool
  | .advertisingStop => true
  | .esp_sleep_enable_timer_wakeup _ => true
  | .esp_deep_sleep_start => true
  | _ => false

/-- Number of `esp_deep_sleep_start` calls in a trace. -/
def sleepStarts (t : List Effect) : Nat :=
  t.count .esp_deep_sleep_start

/-- A platform for evaluating concrete executions: values are natural numbers,
rendered in decimal. -/
def natPlatform : Platform Nat :=
  { render := fun n => toString n
    computeHeatIndex := fun t h => t + h
    computeDewPoint := fun t h => t - h
    comfortOf := fun _ _ => .Comfort_OK }

/-- The sensor power line is at the level `enableSensor` drives it to. -/
def sensorPowered (s : State) : Bool :=
  s.sensorEnable = (enableSensor s).1.sensorEnable

/-- Writes to the sensor power-enable line. -/
def isSensorWrite : Effect → Bool
  | .digitalWrite pin _ => pin = GPIO_SENSOR_ENABLE
  | _ => false

/-- The state in which a client has attached during bring-up, the loop has
processed the attach edge and the client has then detached. -/
def detachedAfterAttach : State :=
  (boot natPlatform ⟨[.connect], []⟩ [.loop ⟨[], [], some 1⟩, .ble .disconnect]).1

/-- One iteration of `loop` together with the callbacks fired since the
previous one. -/
structure Iteration where
  before : List BleEvent
  env : LoopEnv

/-- Consecutive iterations of `loop`: the state reached and, for each
iteration, the effects it performed. -/
def iterations : List Iteration → State → State × List (List Effect)
  | [], s => (s, [])
  | it :: rest, s =>
    let r := bleLoop it.env (deliver it.before s).1
    ((iterations rest r.1).1, r.2 :: (iterations rest r.1).2)

/-- The value of `deviceConnected` each of the iterations finds. -/
def observed : List Iteration → State → List Bool
  | [], _ => []
  | it :: rest, s =>
    (deliver it.before s).1.deviceConnected ::
      observed rest (bleLoop it.env (deliver it.before s).1).1

/-- The state `setup` leaves when a client attached during bring-up. -/
def attachedAtBoot : State :=
  (boot natPlatform ⟨[.connect], []⟩ []).1

/-- The values passed to `setValue` in a trace, in order. -/
def writtenValues : List Effect → List String
  | [] => []
  | .setValue v :: t => v :: writtenValues t
  | _ :: t => writtenValues t

/-- A client's reading of a payload: the pieces between the semicolons. -/
def fieldsOf (payload : String) : List String :=
  (payload.data.splitOn ';').map String.mk

/-- Effects that write to the wireless characteristic. -/
def isWireWrite : Effect → Bool
  | .setValue _ => true
  | .notify => true
  | _ => false

/-- A platform with a single value, rendered as `21.50`. -/
def unitPlatform : Platform Unit :=
  { render := fun _ => "21.50"
    computeHeatIndex := fun _ _ => ()
    computeDewPoint := fun _ _ => ()
    comfortOf := fun _ _ => .Comfort_OK }

/-- Effects that arm the wake-up timer. -/
def isWakeTimerArm : Effect → Bool
  | .esp_sleep_enable_timer_wakeup _ => true
  | _ => false

/-- A characteristic write, a notification, or a write to the indicator LED. -/
def isPublishOrPulse : Effect → Bool
  | .setValue _ => true
  | .notify => true
  | .digitalWrite pin _ => pin = GPIO_LED_GREEN
  | _ => false

/-- Effects of the sensor driver and of the wireless stack. -/
def isAcquisitionOrWireless : Effect → Bool
  | .dhtSetup _ => true
  | .dhtGetTempAndHumidity => true
  | .bleDeviceInit _ => true
  | .createService _ => true
  | .createCharacteristic _ => true
  | .serviceStart => true
  | .advertisingStart => true
  | .advertisingStop => true
  | .setValue _ => true
  | .notify => true
  | _ => false

/-! ## Auxiliary facts -/

theorem deliver_eq (evs : List BleEvent) (s : State) :
    deliver evs s =
      ({ s with deviceConnected := connectedAfter evs s.deviceConnected },
       evs.map callbackLog) := by
  induction evs generalizing s with
  | nil => rfl
  | cons e es ih =>
    cases e <;>
      simp [deliver, callback, onConnect, onDisconnect, Run.andThen, ih, connectedAfter,
        callbackLog]

theorem any_sleep_callbackLog (evs : List BleEvent) :
    (evs.map callbackLog).any isSleepEffect = false := by
  induction evs with
  | nil => rfl
  | cons e es ih => cases e <;> simpa [callbackLog, isSleepEffect] using ih

theorem gotToSuspend_eq (during : List BleEvent) (s : State) :
    gotToSuspend during s =
      ({ s with
          advertising := false
          sensorEnable := some .HIGH
          deviceConnected := connectedAfter during s.deviceConnected
          wakeTimer := some sleepMicroseconds
          asleep := true },
       [.serialPrintln "-->[ESP] suspending..", .advertisingStop,
        .digitalWrite GPIO_SENSOR_ENABLE .HIGH, .delay 8] ++ during.map callbackLog ++
       [.esp_sleep_enable_timer_wakeup sleepMicroseconds, .esp_deep_sleep_start]) := by
  simp [gotToSuspend, println, disableSensor, digitalWrite, delay, Run.andThen, deliver_eq]

theorem bleLoop_steady (env : LoopEnv) (s : State)
    (h : s.deviceConnected = s.oldDeviceConnected) : bleLoop env s = (s, []) := by
  cases hd : s.deviceConnected <;> simp [bleLoop, Run.andThen, ← h, hd]

theorem bleLoop_detach (env : LoopEnv) (s : State)
    (hd : s.deviceConnected = false) (ho : s.oldDeviceConnected = true) :
    bleLoop env s = gotToSuspend env.suspendDelay { s with oldDeviceConnected := false } := by
  simp [bleLoop, hd, ho, gotToSuspend_eq]

theorem bleLoop_attach (env : LoopEnv) (s : State)
    (hd : s.deviceConnected = true) (ho : s.oldDeviceConnected = false)
    (ha : s.asleep = false) :
    bleLoop env s =
      ((enableSensor { s with oldDeviceConnected := true }).andThen
        (delay 1000 env.settleDelay)).andThen (fun s2 => (initTemp env.created s2).1) := by
  simp [bleLoop, hd, ho, ha, Run.andThen]

theorem initTemp_no_sleep (created : Option Nat) (s : State) :
    (initTemp created s).1.2.any isSleepEffect = false := by
  cases created <;> cases h : s.tempTaskHandle <;>
    simp [initTemp, Run.andThen, println, isSleepEffect, h]

theorem bleLoop_connected_no_sleep (env : LoopEnv) (s : State)
    (hd : s.deviceConnected = true) : (bleLoop env s).2.any isSleepEffect = false := by
  cases ho : s.oldDeviceConnected
  · cases ha : s.asleep
    · have h := initTemp_no_sleep env.created
      simp [bleLoop_attach env s hd ho ha, Run.andThen, enableSensor, digitalWrite, delay,
        deliver_eq, isSleepEffect, any_sleep_callbackLog] at h ⊢
      simpa using h _
    · simp [bleLoop, hd, ho, ha]
  · simp [bleLoop_steady env s (hd.trans ho.symm)]


theorem setupBringUp_connected (env : SetupEnv) (s : State) :
    (setupBringUp env s).1.deviceConnected = connectedAfter env.bringUp s.deviceConnected := by
  simp [setupBringUp, Run.andThen, digitalWrite, bleServerInit, delay, deliver_eq,
    GPIO_LED_GREEN, GPIO_SENSOR_ENABLE]

theorem setupBringUp_no_sleep (env : SetupEnv) (s : State) :
    (setupBringUp env s).2.any isSleepEffect = false := by
  simp [setupBringUp, Run.andThen, digitalWrite, bleServerInit, delay, deliver_eq,
    isSleepEffect, any_sleep_callbackLog]

theorem blinkOnboardLed_no_sleep (during : List BleEvent) (s : State) :
    (blinkOnboardLed during s).2.any isSleepEffect = false := by
  simp [blinkOnboardLed, Run.andThen, digitalWrite, delay, deliver_eq, isSleepEffect,
    any_sleep_callbackLog]

theorem getTemperature_no_sleep {α : Type} (P : Platform α) (x : DhtSample α)
    (during : List BleEvent) (s : State) :
    (getTemperature P x during s).1.2.any isSleepEffect = false := by
  have hb := blinkOnboardLed_no_sleep during
  by_cases hx : x.status = 0 <;> cases hd : s.deviceConnected <;>
    simp [getTemperature, Run.andThen, println, publish, isSleepEffect, hx, hd, hb]

theorem step_no_sleep_of_connected {α : Type} (P : Platform α) (st : Step α) (s : State)
    (hd : s.deviceConnected = true) : (step P st s).2.any isSleepEffect = false := by
  unfold step
  split
  · rfl
  · cases st with
    | ble e => cases e <;> simp [callback, onConnect, onDisconnect, isSleepEffect]
    | loop env => exact bleLoop_connected_no_sleep env s hd
    | tick =>
      cases ht : s.tempTicker with
      | none => simp
      | some p =>
        obtain ⟨n, c⟩ := p
        cases c
        cases hh : s.tempTaskHandle <;> simp [triggerGetTemp, hh, isSleepEffect]
    | worker x during =>
      cases hh : s.tempTaskHandle with
      | none => simp
      | some h =>
        have hg := getTemperature_no_sleep P x during s
        cases hte : s.tasksEnabled <;>
          simp [tempTaskPass, Run.andThen, hte, isSleepEffect, hg]

theorem blinkOnboardLed_eq (during : List BleEvent) (s : State) :
    blinkOnboardLed during s =
      ({ s with
          led := some .HIGH
          deviceConnected := connectedAfter during s.deviceConnected },
       [.digitalWrite GPIO_LED_GREEN .LOW, .delay 50] ++ during.map callbackLog ++
       [.digitalWrite GPIO_LED_GREEN .HIGH]) := by
  simp [blinkOnboardLed, digitalWrite, delay, Run.andThen, deliver_eq, GPIO_LED_GREEN,
    GPIO_SENSOR_ENABLE]

theorem step_asleep {α : Type} (P : Platform α) (st : Step α) (s : State)
    (h : s.asleep = true) : step P st s = (s, []) := by
  simp [step, h]

theorem run_asleep {α : Type} (P : Platform α) (steps : List (Step α)) (s : State)
    (h : s.asleep = true) : run P steps s = (s, []) := by
  induction steps with
  | nil => rfl
  | cons st rest ih => simp [run, step_asleep P st s h, Run.andThen, ih]

theorem run_append {α : Type} (P : Platform α) (a b : List (Step α)) (s : State) :
    run P (a ++ b) s = (run P a s).andThen (run P b) := by
  induction a generalizing s with
  | nil => simp [run, Run.andThen]
  | cons st rest ih => simp [run, Run.andThen, ih, List.append_assoc]

theorem run_invariant {α : Type} (P : Platform α) (I : State → Prop)
    (hstep : ∀ (st : Step α) (s : State), I s → I (step P st s).1)
    (steps : List (Step α)) (s : State) (h : I s) : I (run P steps s).1 := by
  induction steps generalizing s with
  | nil => exact h
  | cons st rest ih => exact ih _ (hstep st s h)

/-- Fields that one `bleLoop` iteration leaves alone or sets in a fixed way. -/
theorem bleLoop_cases (env : LoopEnv) (s : State) :
    (bleLoop env s = (s, [])) ∨
    ((bleLoop env s).1.asleep = true ∧ s.deviceConnected = false ∧
      s.oldDeviceConnected = true) ∨
    (s.deviceConnected = true ∧ s.oldDeviceConnected = false ∧ s.asleep = false ∧
      (bleLoop env s).1.oldDeviceConnected = true ∧
      (bleLoop env s).1.sensorEnable = some .HIGH ∧
      (bleLoop env s).1.asleep = false) := by
  cases hd : s.deviceConnected <;> cases ho : s.oldDeviceConnected
  · exact Or.inl (bleLoop_steady env s (hd.trans ho.symm))
  · right; left
    simp [bleLoop_detach env s hd ho, gotToSuspend_eq]
  · cases ha : s.asleep
    · right; right
      rw [bleLoop_attach env s hd ho ha]
      cases hc : env.created <;> cases hh : s.tempTaskHandle <;>
        simp [Run.andThen, enableSensor, digitalWrite, delay, deliver_eq, initTemp, println,
          hc, hh, ha]
    · left
      simp [bleLoop, hd, ho, ha]
  · exact Or.inl (bleLoop_steady env s (hd.trans ho.symm))

theorem bleLoop_tasksEnabled (env : LoopEnv) (s : State) :
    (bleLoop env s).1.tasksEnabled = s.tasksEnabled := by
  cases hd : s.deviceConnected <;> cases ho : s.oldDeviceConnected
  · simp [bleLoop_steady env s (hd.trans ho.symm)]
  · simp [bleLoop_detach env s hd ho, gotToSuspend_eq]
  · cases ha : s.asleep
    · rw [bleLoop_attach env s hd ho ha]
      cases hc : env.created <;> cases hh : s.tempTaskHandle <;>
        simp [Run.andThen, enableSensor, digitalWrite, delay, deliver_eq, initTemp, println,
          hc, hh]
    · simp [bleLoop, hd, ho, ha]
  · simp [bleLoop_steady env s (hd.trans ho.symm)]

/-- Fields that one activation of the worker leaves unchanged. -/
theorem tempTaskPass_frame {α : Type} (P : Platform α) (x : DhtSample α)
    (during : List BleEvent) (s : State) :
    (tempTaskPass P x during s).1.tasksEnabled = s.tasksEnabled ∧
    (tempTaskPass P x during s).1.oldDeviceConnected = s.oldDeviceConnected ∧
    (tempTaskPass P x during s).1.sensorEnable = s.sensorEnable ∧
    (tempTaskPass P x during s).1.tempTaskHandle = s.tempTaskHandle ∧
    (tempTaskPass P x during s).1.tempTicker = s.tempTicker ∧
    (tempTaskPass P x during s).1.asleep = s.asleep := by
  by_cases hx : x.status = 0 <;> cases hd : s.deviceConnected <;>
    cases hte : s.tasksEnabled <;>
    simp [tempTaskPass, getTemperature, Run.andThen, println, publish, blinkOnboardLed_eq,
      hx, hd, hte]

theorem step_tasksEnabled {α : Type} (P : Platform α) (st : Step α) (s : State) :
    (step P st s).1.tasksEnabled = s.tasksEnabled := by
  unfold step
  split
  · rfl
  · cases st with
    | ble e => cases e <;> rfl
    | loop env => exact bleLoop_tasksEnabled env s
    | tick =>
      cases ht : s.tempTicker with
      | none => rfl
      | some p =>
        obtain ⟨n, c⟩ := p
        cases c
        cases hh : s.tempTaskHandle <;> simp [triggerGetTemp, hh]
    | worker x during =>
      cases hh : s.tempTaskHandle with
      | none => rfl
      | some h => exact (tempTaskPass_frame P x during s).1

theorem setup_tasksEnabled (env : SetupEnv) (s : State) :
    (setup env s).1.tasksEnabled = s.tasksEnabled := by
  cases hd : connectedAfter env.bringUp s.deviceConnected <;>
    simp [setup, setupBringUp, Run.andThen, digitalWrite, bleServerInit, delay, deliver_eq,
      gotToSuspend_eq, GPIO_LED_GREEN, GPIO_SENSOR_ENABLE, hd]

theorem boot_tasksEnabled {α : Type} (P : Platform α) (env : SetupEnv)
    (steps : List (Step α)) : (boot P env steps).1.tasksEnabled = true := by
  have h0 : (setup env initState).1.tasksEnabled = true := by
    rw [setup_tasksEnabled]; rfl
  exact run_invariant P (fun s => s.tasksEnabled = true)
    (fun st s h => (step_tasksEnabled P st s).trans h) steps _ h0

/-- Once the attach edge has been processed the sensor line is at `HIGH`. -/
theorem step_rail {α : Type} (P : Platform α) (st : Step α) (s : State)
    (h : s.oldDeviceConnected = true → s.sensorEnable = some .HIGH) :
    (step P st s).1.oldDeviceConnected = true → (step P st s).1.sensorEnable = some .HIGH := by
  unfold step
  split
  · exact h
  · cases st with
    | ble e => cases e <;> exact h
    | loop env =>
      rcases bleLoop_cases env s with h1 | h1 | h1
      · simpa [h1] using h
      · intro _
        simp [bleLoop_detach env s h1.2.1 h1.2.2, gotToSuspend_eq]
      · intro _
        exact h1.2.2.2.2.1
    | tick =>
      cases ht : s.tempTicker with
      | none => exact h
      | some p =>
        obtain ⟨n, c⟩ := p
        cases c
        cases hh : s.tempTaskHandle <;> simpa [triggerGetTemp, hh] using h
    | worker x during =>
      cases hh : s.tempTaskHandle with
      | none => exact h
      | some hdl =>
        have hf := tempTaskPass_frame P x during s
        simp only [hf.2.1, hf.2.2.1]
        exact h

theorem setup_oldDeviceConnected (env : SetupEnv) (s : State) :
    (setup env s).1.oldDeviceConnected = s.oldDeviceConnected := by
  cases hd : connectedAfter env.bringUp s.deviceConnected <;>
    simp [setup, setupBringUp, Run.andThen, digitalWrite, bleServerInit, delay, deliver_eq,
      gotToSuspend_eq, GPIO_LED_GREEN, GPIO_SENSOR_ENABLE, hd]

theorem boot_rail {α : Type} (P : Platform α) (env : SetupEnv) (steps : List (Step α)) :
    (boot P env steps).1.oldDeviceConnected = true →
      (boot P env steps).1.sensorEnable = some .HIGH := by
  have h0 : (setup env initState).1.oldDeviceConnected = true →
      (setup env initState).1.sensorEnable = some .HIGH := by
    rw [setup_oldDeviceConnected]; intro h; exact absurd h (by decide)
  exact run_invariant P
    (fun s => s.oldDeviceConnected = true → s.sensorEnable = some .HIGH)
    (fun st s h => step_rail P st s h) steps _ h0

theorem boot_snoc {α : Type} (P : Platform α) (env : SetupEnv) (steps : List (Step α))
    (st : Step α) :
    boot P env (steps ++ [st]) = (boot P env steps).andThen (step P st) := by
  simp [boot, run_append, run, Run.andThen, List.append_assoc]

theorem sensorPowered_iff (s : State) :
    sensorPowered s = true ↔ s.sensorEnable = some .HIGH := by
  simp [sensorPowered, enableSensor, digitalWrite]

theorem loop_step_connected_powered {α : Type} (P : Platform α) (lenv : LoopEnv) (s : State)
    (hrail : s.oldDeviceConnected = true → s.sensorEnable = some .HIGH)
    (hawake : (step P (.loop lenv) s).1.asleep = false)
    (hconn : (step P (.loop lenv) s).1.deviceConnected = true) :
    (step P (.loop lenv) s).1.sensorEnable = some .HIGH := by
  cases ha : s.asleep
  · have hs : step P (.loop lenv) s = bleLoop lenv s := by simp [step, ha]
    rw [hs] at hawake hconn ⊢
    cases hd : s.deviceConnected <;> cases ho : s.oldDeviceConnected
    · rw [bleLoop_steady lenv s (hd.trans ho.symm)] at hconn
      exact absurd (hd.symm.trans hconn) (by decide)
    · rw [bleLoop_detach lenv s hd ho, gotToSuspend_eq] at hawake
      simp at hawake
    · rcases bleLoop_cases lenv s with h1 | h1 | h1
      · have := bleLoop_attach lenv s hd ho ha
        rw [h1] at this
        have h2 := congrArg (fun r => r.1.oldDeviceConnected) this
        cases hc : lenv.created <;> cases hh : s.tempTaskHandle <;>
          simp [Run.andThen, enableSensor, digitalWrite, delay, deliver_eq, initTemp, println,
            hc, hh, ho] at h2
      · rw [h1.1] at hawake
        simp at hawake
      · exact h1.2.2.2.2.1
    · rw [bleLoop_steady lenv s (hd.trans ho.symm)]
      exact hrail ho
  · rw [step_asleep P _ s ha] at hawake
    exact absurd (ha.symm.trans hawake) (by decide)

theorem sleepStarts_gotToSuspend (during : List BleEvent) (s : State) :
    sleepStarts (gotToSuspend during s).2 = 1 := by
  have h : ∀ evs : List BleEvent,
      List.count Effect.esp_deep_sleep_start (evs.map callbackLog) = 0 := by
    intro evs
    induction evs with
    | nil => rfl
    | cons e es ih => cases e <;> simpa [callbackLog] using ih
  simp [sleepStarts, gotToSuspend_eq, h]

theorem deliver_oldDeviceConnected (evs : List BleEvent) (s : State) :
    (deliver evs s).1.oldDeviceConnected = s.oldDeviceConnected := by
  simp [deliver_eq]

theorem deliver_asleep (evs : List BleEvent) (s : State) :
    (deliver evs s).1.asleep = s.asleep := by
  simp [deliver_eq]

/-- Iterations that all find `deviceConnected` equal to `oldDeviceConnected`
perform nothing. -/
theorem iterations_steady (b : Bool) (its : List Iteration) (s : State)
    (ho : s.oldDeviceConnected = b) (hobs : ∀ c ∈ observed its s, c = b) :
    (iterations its s).2 = List.replicate its.length [] := by
  induction its generalizing s with
  | nil => rfl
  | cons it rest ih =>
    have h1 : (deliver it.before s).1.deviceConnected = b :=
      hobs _ (by simp [observed])
    have h2 : (deliver it.before s).1.oldDeviceConnected = b := by
      rw [deliver_oldDeviceConnected]; exact ho
    have h3 := bleLoop_steady it.env (deliver it.before s).1 (h1.trans h2.symm)
    have h4 : ∀ c ∈ observed rest (deliver it.before s).1, c = b := by
      intro c hc
      apply hobs
      simp [observed, h3, hc]
    simp [iterations, h3, List.replicate_succ, ih _ h2 h4]

/-- The effects of the attach branch of `bleLoop`. -/
theorem bleLoop_attach_trace (env : LoopEnv) (s : State)
    (hd : s.deviceConnected = true) (ho : s.oldDeviceConnected = false)
    (ha : s.asleep = false) :
    (bleLoop env s).2 =
      [.digitalWrite GPIO_SENSOR_ENABLE .HIGH, .delay 1000] ++
        env.settleDelay.map callbackLog ++
      [.dhtSetup dhtPin, .serialPrintln "-->[DHT] initiated",
        .xTaskCreatePinnedToCore "tempTask " 4000 5 1] ++
      [if env.created.isSome || s.tempTaskHandle.isSome then
          Effect.tickerAttach 10 .triggerGetTemp
        else Effect.serialPrintln "--->[E] Failed to start task for temperature update"] := by
  rw [bleLoop_attach env s hd ho ha]
  cases hc : env.created <;> cases hh : s.tempTaskHandle <;>
    simp [Run.andThen, enableSensor, digitalWrite, delay, deliver_eq, initTemp, println, hc, hh]

theorem count_callbackLog (e : Effect) (he : ∀ m, e ≠ .serialPrintln m)
    (evs : List BleEvent) : List.count e (evs.map callbackLog) = 0 := by
  rw [List.count_eq_zero]
  intro hmem
  obtain ⟨ev, _, hev⟩ := List.mem_map.1 hmem
  cases ev <;> exact he _ hev.symm

theorem detach_edge_aux (env : LoopEnv) (s : State)
    (hd : s.deviceConnected = false) (ho : s.oldDeviceConnected = true) :
    sleepStarts (bleLoop env s).2 = 1 ∧ (bleLoop env s).1.oldDeviceConnected = false := by
  constructor
  · rw [bleLoop_detach env s hd ho]; exact sleepStarts_gotToSuspend _ _
  · simp [bleLoop_detach env s hd ho, gotToSuspend_eq]

/-- The state the attach branch of `bleLoop` leaves. -/
theorem bleLoop_attach_state (env : LoopEnv) (s : State)
    (hd : s.deviceConnected = true) (ho : s.oldDeviceConnected = false)
    (ha : s.asleep = false) :
    (bleLoop env s).1.oldDeviceConnected = true ∧
    (bleLoop env s).1.sensorEnable = some .HIGH ∧
    (bleLoop env s).1.asleep = false ∧
    (bleLoop env s).1.tasksEnabled = s.tasksEnabled ∧
    (bleLoop env s).1.deviceConnected = connectedAfter env.settleDelay true ∧
    (bleLoop env s).1.tempTaskHandle = (env.created <|> s.tempTaskHandle) ∧
    (bleLoop env s).1.tempTicker =
      (if env.created.isSome || s.tempTaskHandle.isSome then some (10, .triggerGetTemp)
       else s.tempTicker) := by
  rw [bleLoop_attach env s hd ho ha]
  cases hc : env.created <;> cases hh : s.tempTaskHandle <;>
    simp [Run.andThen, enableSensor, digitalWrite, delay, deliver_eq, initTemp, println, hc, hh,
      hd, ha]

theorem flatten_cons_replicate_nil (t : List Effect) (n : Nat) :
    (t :: List.replicate n []).flatten = t := by
  simp

theorem writtenValues_append (a b : List Effect) :
    writtenValues (a ++ b) = writtenValues a ++ writtenValues b := by
  induction a with
  | nil => rfl
  | cons e t ih => cases e <;> simp [writtenValues, ih]

theorem writtenValues_callbackLog (evs : List BleEvent) :
    writtenValues (evs.map callbackLog) = [] := by
  induction evs with
  | nil => rfl
  | cons e es ih => cases e <;> simpa [callbackLog, writtenValues] using ih

theorem any_wire_callbackLog (evs : List BleEvent) :
    (evs.map callbackLog).any isWireWrite = false := by
  induction evs with
  | nil => rfl
  | cons e es ih => cases e <;> simpa [callbackLog, isWireWrite] using ih

/-- The successful path of `getTemperature`. -/
theorem getTemperature_ok {α : Type} (P : Platform α) (x : DhtSample α)
    (during : List BleEvent) (s : State) (hx : x.status = 0) :
    getTemperature P x during s =
      (((blinkOnboardLed during
          (if s.deviceConnected then
            { s with cf := P.comfortOf x.temperature x.humidity, charValue := outputOf P x }
           else { s with cf := P.comfortOf x.temperature x.humidity })).1,
        [.dhtGetTempAndHumidity,
         .serialPrintln
          ("-->[DHT] T:" ++ P.render x.temperature ++
           " H:" ++ P.render x.humidity ++
           " I:" ++ P.render (P.computeHeatIndex x.temperature x.humidity) ++
           " D:" ++ P.render (P.computeDewPoint x.temperature x.humidity) ++
           " " ++ comfortStatusOf (P.comfortOf x.temperature x.humidity))] ++
        (if s.deviceConnected then [.setValue (outputOf P x), .notify] else []) ++
        ([.digitalWrite GPIO_LED_GREEN .LOW, .delay 50] ++ during.map callbackLog ++
          [.digitalWrite GPIO_LED_GREEN .HIGH])),
       true) := by
  cases hd : s.deviceConnected <;>
    simp [getTemperature, Run.andThen, println, publish, blinkOnboardLed_eq, hx, hd]

theorem outputOf_eq {α : Type} (P : Platform α) (x : DhtSample α) :
    outputOf P x =
      P.render x.temperature ++ ";" ++ P.render x.humidity ++ ";" ++
        P.render (P.computeDewPoint x.temperature x.humidity) ++ ";" ++
        P.render (P.computeHeatIndex x.temperature x.humidity) := by
  simp [outputOf]

theorem outputOf_data {α : Type} (P : Platform α) (x : DhtSample α) :
    (outputOf P x).data =
      [';'].intercalate
        [(P.render x.temperature).data, (P.render x.humidity).data,
         (P.render (P.computeDewPoint x.temperature x.humidity)).data,
         (P.render (P.computeHeatIndex x.temperature x.humidity)).data] := by
  simp [outputOf, List.intercalate, List.intersperse]

/-- While the device is awake and no attach edge has been processed, there is
no worker and the ticker is not attached. -/
theorem step_fresh {α : Type} (P : Platform α) (st : Step α) (s : State)
    (h : s.asleep = false → s.oldDeviceConnected = false →
      s.tempTaskHandle = none ∧ s.tempTicker = none) :
    (step P st s).1.asleep = false → (step P st s).1.oldDeviceConnected = false →
      (step P st s).1.tempTaskHandle = none ∧ (step P st s).1.tempTicker = none := by
  unfold step
  split
  · exact h
  · cases st with
    | ble e => cases e <;> exact h
    | loop env =>
      rcases bleLoop_cases env s with h1 | h1 | h1
      · simpa [h1] using h
      · intro h2
        rw [h1.1] at h2
        exact absurd h2 (by decide)
      · intro _ h2
        rw [h1.2.2.2.1] at h2
        exact absurd h2 (by decide)
    | tick =>
      cases ht : s.tempTicker with
      | none => simpa [ht] using h
      | some p =>
        obtain ⟨n, c⟩ := p
        cases c
        cases hh : s.tempTaskHandle <;> simpa [triggerGetTemp, hh, ht] using h
    | worker x during =>
      cases hh : s.tempTaskHandle with
      | none => simpa [hh] using h
      | some hdl =>
        have hf := tempTaskPass_frame P x during s
        simp only [hf.2.1, hf.2.2.2.1, hf.2.2.2.2.1, hf.2.2.2.2.2]
        simpa [hh] using h

theorem setup_worker (env : SetupEnv) (s : State) :
    (setup env s).1.tempTaskHandle = s.tempTaskHandle ∧
    (setup env s).1.tempTicker = s.tempTicker := by
  cases hd : connectedAfter env.bringUp s.deviceConnected <;>
    simp [setup, setupBringUp, Run.andThen, digitalWrite, bleServerInit, delay, deliver_eq,
      gotToSuspend_eq, GPIO_LED_GREEN, GPIO_SENSOR_ENABLE, hd]

theorem boot_fresh {α : Type} (P : Platform α) (env : SetupEnv) (steps : List (Step α)) :
    (boot P env steps).1.asleep = false → (boot P env steps).1.oldDeviceConnected = false →
      (boot P env steps).1.tempTaskHandle = none ∧ (boot P env steps).1.tempTicker = none := by
  have h0 : (setup env initState).1.asleep = false →
      (setup env initState).1.oldDeviceConnected = false →
      (setup env initState).1.tempTaskHandle = none ∧
        (setup env initState).1.tempTicker = none := by
    intro _ _
    rw [(setup_worker env initState).1, (setup_worker env initState).2]
    exact ⟨rfl, rfl⟩
  exact run_invariant P
    (fun s => s.asleep = false → s.oldDeviceConnected = false →
      s.tempTaskHandle = none ∧ s.tempTicker = none)
    (fun st s h => step_fresh P st s h) steps _ h0

theorem sleepStarts_of_no_sleep (t : List Effect) (h : t.any isSleepEffect = false) :
    sleepStarts t = 0 := by
  rw [sleepStarts, List.count_eq_zero]
  intro hmem
  have := List.any_eq_true.2 ⟨_, hmem, (rfl : isSleepEffect .esp_deep_sleep_start = true)⟩
  rw [h] at this
  exact absurd this (by decide)

theorem any_arm_of_no_sleep (t : List Effect) (h : t.any isSleepEffect = false) :
    t.any isWakeTimerArm = false := by
  rw [List.any_eq_false] at h ⊢
  intro e he
  have := h e he
  cases e <;> simp_all [isSleepEffect, isWakeTimerArm]

theorem sleepMicroseconds_eq : sleepMicroseconds = 15000000 := by
  decide

/-- The failing path of `getTemperature`. -/
theorem getTemperature_fault {α : Type} (P : Platform α) (x : DhtSample α)
    (during : List BleEvent) (s : State) (hx : x.status ≠ 0) :
    getTemperature P x during s =
      ((s, [.dhtGetTempAndHumidity,
            .serialPrintln ("--->[E] DHT22 error status: " ++ x.statusString)]), false) := by
  simp [getTemperature, Run.andThen, println, hx]

theorem tempTaskPass_count (e0 : Effect)
    (he : e0 = .dhtSetup dhtPin ∨ e0 = .xTaskCreatePinnedToCore "tempTask " 4000 5 1 ∨
      e0 = .tickerAttach 10 .triggerGetTemp)
    {α : Type} (P : Platform α) (x : DhtSample α) (during : List BleEvent) (s : State) :
    List.count e0 (tempTaskPass P x during s).2 = 0 := by
  have hcb : List.count e0 (during.map callbackLog) = 0 :=
    count_callbackLog e0 (by rcases he with h | h | h <;> simp [h]) during
  by_cases hx : x.status = 0
  · rcases he with h | h | h <;> subst h <;> cases hd : s.deviceConnected <;>
      cases hte : s.tasksEnabled <;>
      simp [tempTaskPass, Run.andThen, getTemperature_ok P x during s hx, hd, hte,
        List.count_cons, hcb]
  · rcases he with h | h | h <;> subst h <;> cases hte : s.tasksEnabled <;>
      simp [tempTaskPass, Run.andThen, getTemperature_fault P x during s hx, hte,
        List.count_cons]

/-- One step contributes at most one call of `initTemp`, and none once the
attach edge has been processed or the device is asleep. -/
theorem step_count (e0 : Effect)
    (he : e0 = .dhtSetup dhtPin ∨ e0 = .xTaskCreatePinnedToCore "tempTask " 4000 5 1 ∨
      e0 = .tickerAttach 10 .triggerGetTemp)
    {α : Type} (P : Platform α) (st : Step α) (s : State) :
    ((s.oldDeviceConnected = true ∨ s.asleep = true) →
      List.count e0 (step P st s).2 = 0 ∧
      ((step P st s).1.oldDeviceConnected = true ∨ (step P st s).1.asleep = true)) ∧
    List.count e0 (step P st s).2 ≤ 1 ∧
    (List.count e0 (step P st s).2 = 0 ∨ (step P st s).1.oldDeviceConnected = true) := by
  rcases Bool.eq_false_or_eq_true s.asleep with ha | ha
  · simp [step_asleep P st s ha, ha]
  · have hne : ∀ m, e0 ≠ .serialPrintln m := by
      rcases he with h | h | h <;> simp [h]
    cases st with
    | ble e =>
      have h1 : List.count e0 (step P (.ble e) s).2 = 0 := by
        cases e <;> rcases he with h | h | h <;> subst h <;>
          simp [step, ha, callback, onConnect, onDisconnect, List.count_cons]
      have h2 : (step P (.ble e) s).1.oldDeviceConnected = s.oldDeviceConnected := by
        cases e <;> simp [step, ha, callback, onConnect, onDisconnect]
      refine ⟨fun h => ⟨h1, ?_⟩, by omega, Or.inl h1⟩
      rcases h with h | h
      · exact Or.inl (h2.trans h)
      · exact absurd (ha.symm.trans h) (by decide)
    | loop env =>
      have hs : step P (.loop env) s = bleLoop env s := by simp [step, ha]
      rw [hs]
      cases hd : s.deviceConnected <;> cases ho : s.oldDeviceConnected
      · simp [bleLoop_steady env s (hd.trans ho.symm), ha, ho]
      · have hc : List.count e0 (gotToSuspend env.suspendDelay
            { s with oldDeviceConnected := false }).2 = 0 := by
          have hcb := count_callbackLog e0 hne env.suspendDelay
          rcases he with h | h | h <;> subst h <;>
            simp [gotToSuspend_eq, List.count_cons, hcb]
        rw [bleLoop_detach env s hd ho]
        refine ⟨fun _ => ⟨hc, Or.inr ?_⟩, by omega, Or.inl hc⟩
        simp [gotToSuspend_eq]
      · have hst := bleLoop_attach_state env s hd ho ha
        refine ⟨fun h => ?_, ?_, Or.inr hst.1⟩
        · simp [ho, ha] at h
        · have hcb := count_callbackLog e0 hne env.settleDelay
          rw [bleLoop_attach_trace env s hd ho ha]
          rcases he with h | h | h <;> subst h <;> split <;>
            simp [List.count_cons, hcb]
      · simp [bleLoop_steady env s (hd.trans ho.symm), ha, ho]
    | tick =>
      have h1 : (step P .tick s).1 = s := by
        cases ht : s.tempTicker with
        | none => simp [step, ha, ht]
        | some p =>
          obtain ⟨n, c⟩ := p
          cases c
          cases hh : s.tempTaskHandle <;> simp [step, ha, ht, triggerGetTemp, hh]
      have h2 : List.count e0 (step P .tick s).2 = 0 := by
        cases ht : s.tempTicker with
        | none => simp [step, ha, ht]
        | some p =>
          obtain ⟨n, c⟩ := p
          cases c
          cases hh : s.tempTaskHandle <;> rcases he with h | h | h <;> subst h <;>
            simp [step, ha, ht, triggerGetTemp, hh, List.count_cons]
      rw [h1]
      exact ⟨fun h => ⟨h2, h⟩, by omega, Or.inl h2⟩
    | worker x during =>
      cases hh : s.tempTaskHandle with
      | none => simp [step, ha, hh]
      | some hdl =>
        have hs : step P (.worker x during) s = tempTaskPass P x during s := by
          simp [step, ha, hh]
        have hf := tempTaskPass_frame P x during s
        have h2 := tempTaskPass_count e0 he P x during s
        rw [hs, hf.2.1, hf.2.2.2.2.2]
        exact ⟨fun h => ⟨h2, h⟩, by omega, Or.inl h2⟩

theorem run_count_zero (e0 : Effect)
    (he : e0 = .dhtSetup dhtPin ∨ e0 = .xTaskCreatePinnedToCore "tempTask " 4000 5 1 ∨
      e0 = .tickerAttach 10 .triggerGetTemp)
    {α : Type} (P : Platform α) (steps : List (Step α)) (s : State)
    (h : s.oldDeviceConnected = true ∨ s.asleep = true) :
    List.count e0 (run P steps s).2 = 0 := by
  induction steps generalizing s with
  | nil => rfl
  | cons st rest ih =>
    have h1 := (step_count e0 he P st s).1 h
    simp [run, Run.andThen, h1.1, ih _ h1.2]

theorem run_count_le_one (e0 : Effect)
    (he : e0 = .dhtSetup dhtPin ∨ e0 = .xTaskCreatePinnedToCore "tempTask " 4000 5 1 ∨
      e0 = .tickerAttach 10 .triggerGetTemp)
    {α : Type} (P : Platform α) (steps : List (Step α)) (s : State) :
    List.count e0 (run P steps s).2 ≤ 1 := by
  induction steps generalizing s with
  | nil => simp [run]
  | cons st rest ih =>
    have h1 := (step_count e0 he P st s).2
    simp only [run, Run.andThen, List.count_append]
    rcases h1.2 with h2 | h2
    · rw [h2]
      simpa using ih (step P st s).1
    · rw [run_count_zero e0 he P rest _ (Or.inl h2)]
      simpa using h1.1

theorem setupBringUp_trace (env : SetupEnv) (s : State) :
    (setupBringUp env s).2 =
      [.serialBegin 115200, .serialPrintln "", .serialPrintln "==>[DHT22 ESP32]<==",
       .pinModeOutput GPIO_LED_GREEN, .digitalWrite GPIO_LED_GREEN .HIGH,
       .pinModeOutput GPIO_SENSOR_ENABLE, .bleDeviceInit "ESP32_DTH22",
       .createService SERVICE_UUID, .createCharacteristic CHARAC_DHT_UUID, .serviceStart,
       .serialPrintln "-->[BLE] start advertising", .advertisingStart,
       .serialPrintln "-->[BLE] GATT server ready. (Waiting a client to notify)",
       .delay 1000] ++ env.bringUp.map callbackLog := by
  simp [setupBringUp, Run.andThen, digitalWrite, bleServerInit, delay, deliver_eq]

theorem setup_count (e0 : Effect)
    (he : e0 = .dhtSetup dhtPin ∨ e0 = .xTaskCreatePinnedToCore "tempTask " 4000 5 1 ∨
      e0 = .tickerAttach 10 .triggerGetTemp)
    (env : SetupEnv) (s : State) : List.count e0 (setup env s).2 = 0 := by
  have hne : ∀ m, e0 ≠ .serialPrintln m := by
    rcases he with h | h | h <;> simp [h]
  have h1 := count_callbackLog e0 hne env.bringUp
  have h2 := count_callbackLog e0 hne env.suspendDelay
  have hb : List.count e0 (setupBringUp env s).2 = 0 := by
    rw [setupBringUp_trace, List.count_append, h1, Nat.add_zero, List.count_eq_zero]
    rcases he with h | h | h <;> subst h <;> simp
  have hg : ∀ s1 : State, List.count e0 (gotToSuspend env.suspendDelay s1).2 = 0 := by
    intro s1
    rw [gotToSuspend_eq]
    simp only [List.count_append, h2, Nat.add_zero]
    rw [Nat.add_eq_zero_iff, List.count_eq_zero, List.count_eq_zero]
    rcases he with h | h | h <;> subst h <;> simp
  cases hd : (setupBringUp env s).1.deviceConnected <;>
    simp [setup, Run.andThen, hd, hb, hg]

/-! ## The claims -/

/-- C1: deep sleep is never initiated while a client is attached.  An iteration
of `bleLoop` whose trace contains an effect of the sleep sequence observed
`deviceConnected == false`; `setup` performs the sleep sequence only when
`deviceConnected` is false after the bring-up delay; and in every execution from
reset, no step taken from a state with `deviceConnected == true` performs an
effect of the sleep sequence. -/
theorem sleep_only_when_detached {α : Type} (P : Platform α) :
    (∀ (env : LoopEnv) (s : State),
      (bleLoop env s).2.any isSleepEffect = true → s.deviceConnected = false) ∧
    (∀ (env : SetupEnv) (s : State),
      (setup env s).2.any isSleepEffect = true →
        (setupBringUp env s).1.deviceConnected = false) ∧
    (∀ (env : SetupEnv) (steps : List (Step α)) (st : Step α),
      (step P st (boot P env steps).1).2.any isSleepEffect = true →
        (boot P env steps).1.deviceConnected = false) := by
  refine ⟨?_, ?_, ?_⟩
  · intro env s h
    cases hd : s.deviceConnected
    · rfl
    · rw [bleLoop_connected_no_sleep env s hd] at h
      exact absurd h (by decide)
  · intro env s h
    cases hd : (setupBringUp env s).1.deviceConnected
    · rfl
    · have hn := setupBringUp_no_sleep env s
      simp [setup, Run.andThen, hd, hn] at h
  · intro env steps st h
    cases hd : (boot P env steps).1.deviceConnected
    · rfl
    · rw [step_no_sleep_of_connected P st _ hd] at h
      exact absurd h (by decide)

/-- Witness of `sleep_only_when_detached`: the detach iteration after a client
attached during bring-up and the loop processed the attach edge. -/
theorem sleep_only_when_detached_witness :
    (bleLoop ⟨[], [], none⟩
        { initState with oldDeviceConnected := true }).2.any isSleepEffect = true ∧
      ({ initState with oldDeviceConnected := true } : State).deviceConnected = false :=
  ⟨by decide,
   (sleep_only_when_detached (⟨fun _ => "", fun a _ => a, fun a _ => a,
      fun _ _ => .Comfort_OK⟩ : Platform Nat)).1 ⟨[], [], none⟩
      { initState with oldDeviceConnected := true } (by decide)⟩

/-- C2 (as amended): in every state reachable from reset `tasksEnabled` is true,
whatever `deviceConnected` is; and after every completed `bleLoop` iteration
(the device is still awake), `deviceConnected == true` implies that the sensor
power line is at its enable level. -/
theorem connected_implies_powered {α : Type} (P : Platform α) (env : SetupEnv)
    (steps : List (Step α)) :
    (boot P env steps).1.tasksEnabled = true ∧
    ∀ lenv : LoopEnv,
      (boot P env (steps ++ [.loop lenv])).1.asleep = false →
      (boot P env (steps ++ [.loop lenv])).1.deviceConnected = true →
        sensorPowered (boot P env (steps ++ [.loop lenv])).1 = true ∧
        (boot P env (steps ++ [.loop lenv])).1.tasksEnabled = true := by
  refine ⟨boot_tasksEnabled P env steps, ?_⟩
  intro lenv hawake hconn
  refine ⟨?_, boot_tasksEnabled P env _⟩
  rw [sensorPowered_iff]
  rw [boot_snoc] at hawake hconn ⊢
  exact loop_step_connected_powered P lenv _ (boot_rail P env steps) hawake hconn

/-- Witness of `connected_implies_powered`: a client attaches during bring-up and
the first iteration of the loop processes the attach edge. -/
theorem connected_implies_powered_witness :
    (boot natPlatform ⟨[.connect], []⟩ ([] ++ [.loop ⟨[], [], some 1⟩])).1.asleep = false ∧
    (boot natPlatform ⟨[.connect], []⟩
      ([] ++ [.loop ⟨[], [], some 1⟩])).1.deviceConnected = true ∧
    sensorPowered (boot natPlatform ⟨[.connect], []⟩
      ([] ++ [.loop ⟨[], [], some 1⟩])).1 = true ∧
    (boot natPlatform ⟨[.connect], []⟩ ([] ++ [.loop ⟨[], [], some 1⟩])).1.tasksEnabled = true :=
  ⟨by decide, by decide,
   (connected_implies_powered natPlatform ⟨[.connect], []⟩ []).2 ⟨[], [], some 1⟩
     (by decide) (by decide)⟩

/-- C2 (counterexample): two executions from reset that end, awake, right after
a completed `bleLoop` iteration.  In the first the client detaches during the
settle delay of the attach iteration: the sensor line is at its enable level and
`tasksEnabled` is true although `deviceConnected` is false.  In the second the
client detaches before the first iteration, which then completes without any
effect: `tasksEnabled` is true although `deviceConnected` is false. -/
theorem powered_and_enabled_while_detached :
    ((boot natPlatform ⟨[.connect], []⟩ [.loop ⟨[], [.disconnect], some 1⟩]).1.asleep = false ∧
     ¬ ((sensorPowered
          (boot natPlatform ⟨[.connect], []⟩ [.loop ⟨[], [.disconnect], some 1⟩]).1 = true ∧
         (boot natPlatform ⟨[.connect], []⟩
          [.loop ⟨[], [.disconnect], some 1⟩]).1.tasksEnabled = true) ↔
        (boot natPlatform ⟨[.connect], []⟩
          [.loop ⟨[], [.disconnect], some 1⟩]).1.deviceConnected = true)) ∧
    ((boot natPlatform ⟨[.connect], []⟩
        [.ble .disconnect, .loop ⟨[], [], some 1⟩]).1.asleep = false ∧
     ¬ ((boot natPlatform ⟨[.connect], []⟩
          [.ble .disconnect, .loop ⟨[], [], some 1⟩]).1.tasksEnabled = true ↔
        (boot natPlatform ⟨[.connect], []⟩
          [.ble .disconnect, .loop ⟨[], [], some 1⟩]).1.deviceConnected = true)) := by
  decide

/-- C3 (as amended): on the detach edge the iteration sets `oldDeviceConnected`
to false and is exactly one call of `gotToSuspend`: advertising is stopped, the
sensor power-enable line is written once, the wake timer is armed and deep sleep
is started once.  `tempTicker` and `tasksEnabled` are left as they were. -/
theorem detach_edge (env : LoopEnv) (s : State)
    (hd : s.deviceConnected = false) (ho : s.oldDeviceConnected = true) :
    bleLoop env s = gotToSuspend env.suspendDelay { s with oldDeviceConnected := false } ∧
    sleepStarts (bleLoop env s).2 = 1 ∧
    ((bleLoop env s).2.filter isSensorWrite).length = 1 ∧
    (bleLoop env s).1.oldDeviceConnected = false ∧
    (bleLoop env s).1.advertising = false ∧
    (bleLoop env s).1.wakeTimer = some sleepMicroseconds ∧
    (bleLoop env s).1.asleep = true ∧
    (bleLoop env s).1.tempTicker = s.tempTicker ∧
    (bleLoop env s).1.tasksEnabled = s.tasksEnabled := by
  have hf : ∀ evs : List BleEvent, (evs.map callbackLog).filter isSensorWrite = [] := by
    intro evs
    induction evs with
    | nil => rfl
    | cons e es ih => cases e <;> simpa [callbackLog, isSensorWrite] using ih
  refine ⟨bleLoop_detach env s hd ho, ?_, ?_, ?_⟩
  · rw [bleLoop_detach env s hd ho]; exact sleepStarts_gotToSuspend _ _
  · simp [bleLoop_detach env s hd ho, gotToSuspend_eq, List.filter_cons, isSensorWrite, hf]
  · simp [bleLoop_detach env s hd ho, gotToSuspend_eq]

/-- Witness of `detach_edge`: the detach iteration after an attach. -/
theorem detach_edge_witness :
    detachedAfterAttach.deviceConnected = false ∧
    detachedAfterAttach.oldDeviceConnected = true ∧
    sleepStarts (bleLoop ⟨[], [], none⟩ detachedAfterAttach).2 = 1 :=
  ⟨by decide, by decide,
   (detach_edge ⟨[], [], none⟩ detachedAfterAttach (by decide) (by decide)).2.1⟩

/-- C3 (counterexample): after the detach iteration that follows an attach, the
ticker is still attached, `tasksEnabled` is still true and the sensor
power-enable line is at the very level `enableSensor` sets. -/
theorem detach_leaves_ticker_flag_and_rail :
    detachedAfterAttach.deviceConnected = false ∧
    detachedAfterAttach.oldDeviceConnected = true ∧
    (bleLoop ⟨[], [], none⟩ detachedAfterAttach).1.tempTicker =
      some (10, .triggerGetTemp) ∧
    (bleLoop ⟨[], [], none⟩ detachedAfterAttach).1.tasksEnabled = true ∧
    (bleLoop ⟨[], [], none⟩ detachedAfterAttach).1.sensorEnable =
      (enableSensor detachedAfterAttach).1.sensorEnable ∧
    ¬ ((bleLoop ⟨[], [], none⟩ detachedAfterAttach).1.tempTicker = none ∧
       (bleLoop ⟨[], [], none⟩ detachedAfterAttach).1.tasksEnabled = false ∧
       (bleLoop ⟨[], [], none⟩ detachedAfterAttach).1.sensorEnable ≠
         (enableSensor detachedAfterAttach).1.sensorEnable ∧
       sleepStarts (bleLoop ⟨[], [], none⟩ detachedAfterAttach).2 = 1) := by
  decide

/-- C4: edge detection is idempotent.  Starting with `oldDeviceConnected` false
on an awake device, any `n >= 1` consecutive iterations that all find
`deviceConnected` true perform the attach effects (sensor enable, settle delay,
`initTemp`) exactly once, in the first iteration, and nothing in the others; an
iteration that finds `deviceConnected == oldDeviceConnected` performs no effect
and returns the state unchanged; and starting with `oldDeviceConnected` true,
consecutive iterations that all find `deviceConnected` false perform the sleep
sequence exactly once, in the first one, which sets `oldDeviceConnected` to
false. -/
theorem edge_detection_idempotent :
    (∀ (it : Iteration) (rest : List Iteration) (s : State),
      s.oldDeviceConnected = false → s.asleep = false →
      (∀ c ∈ observed (it :: rest) s, c = true) →
        (iterations (it :: rest) s).2 =
          (bleLoop it.env (deliver it.before s).1).2 :: List.replicate rest.length [] ∧
        (iterations (it :: rest) s).2.flatten.count
          (.digitalWrite GPIO_SENSOR_ENABLE .HIGH) = 1 ∧
        (iterations (it :: rest) s).2.flatten.count (.delay 1000) = 1 ∧
        (iterations (it :: rest) s).2.flatten.count (.dhtSetup dhtPin) = 1) ∧
    (∀ (env : LoopEnv) (s : State),
      s.deviceConnected = s.oldDeviceConnected → bleLoop env s = (s, [])) ∧
    (∀ (it : Iteration) (rest : List Iteration) (s : State),
      s.oldDeviceConnected = true →
      (∀ c ∈ observed (it :: rest) s, c = false) →
        (iterations (it :: rest) s).2 =
          (bleLoop it.env (deliver it.before s).1).2 :: List.replicate rest.length [] ∧
        sleepStarts (iterations (it :: rest) s).2.flatten = 1 ∧
        (bleLoop it.env (deliver it.before s).1).1.oldDeviceConnected = false) := by
  refine ⟨?_, bleLoop_steady, ?_⟩
  · intro it rest s ho ha hobs
    have hd1 : (deliver it.before s).1.deviceConnected = true := hobs _ (by simp [observed])
    have ho1 : (deliver it.before s).1.oldDeviceConnected = false := by
      rw [deliver_oldDeviceConnected]; exact ho
    have ha1 : (deliver it.before s).1.asleep = false := by
      rw [deliver_asleep]; exact ha
    have hst := bleLoop_attach_state it.env _ hd1 ho1 ha1
    have hrest : ∀ c ∈ observed rest (bleLoop it.env (deliver it.before s).1).1, c = true := by
      intro c hc
      apply hobs
      simp [observed, hc]
    have heq : (iterations (it :: rest) s).2 =
        (bleLoop it.env (deliver it.before s).1).2 :: List.replicate rest.length [] := by
      simp [iterations, iterations_steady true rest _ hst.1 hrest]
    have hcb := fun e he => count_callbackLog e he it.env.settleDelay
    refine ⟨heq, ?_, ?_, ?_⟩ <;>
      rw [heq, flatten_cons_replicate_nil, bleLoop_attach_trace it.env _ hd1 ho1 ha1] <;>
      split <;>
      simp [List.count_cons, hcb, GPIO_SENSOR_ENABLE, dhtPin]
  · intro it rest s ho hobs
    have hd1 : (deliver it.before s).1.deviceConnected = false := hobs _ (by simp [observed])
    have ho1 : (deliver it.before s).1.oldDeviceConnected = true := by
      rw [deliver_oldDeviceConnected]; exact ho
    have hdt := detach_edge_aux it.env _ hd1 ho1
    have hrest : ∀ c ∈ observed rest (bleLoop it.env (deliver it.before s).1).1, c = false := by
      intro c hc
      apply hobs
      simp [observed, hc]
    have heq : (iterations (it :: rest) s).2 =
        (bleLoop it.env (deliver it.before s).1).2 :: List.replicate rest.length [] := by
      simp [iterations, iterations_steady false rest _ hdt.2 hrest]
    refine ⟨heq, ?_, hdt.2⟩
    rw [heq, flatten_cons_replicate_nil]
    exact hdt.1

/-- Witness of `edge_detection_idempotent`: three iterations after a client
attached during bring-up; the first performs the attach effects, the other two
nothing. -/
theorem edge_detection_idempotent_witness :
    attachedAtBoot.oldDeviceConnected = false ∧ attachedAtBoot.asleep = false ∧
    (∀ c ∈ observed [⟨[], ⟨[], [], some 1⟩⟩, ⟨[], ⟨[], [], some 2⟩⟩,
        ⟨[.disconnect, .connect], ⟨[], [], some 3⟩⟩] attachedAtBoot, c = true) ∧
    ((iterations [⟨[], ⟨[], [], some 1⟩⟩, ⟨[], ⟨[], [], some 2⟩⟩,
        ⟨[.disconnect, .connect], ⟨[], [], some 3⟩⟩] attachedAtBoot).2.flatten.count
      (.dhtSetup dhtPin) = 1) :=
  ⟨by decide, by decide, by decide,
   (edge_detection_idempotent.1 ⟨[], ⟨[], [], some 1⟩⟩
      [⟨[], ⟨[], [], some 2⟩⟩, ⟨[.disconnect, .connect], ⟨[], [], some 3⟩⟩] attachedAtBoot
      (by decide) (by decide) (by decide)).2.2.2⟩

/-- C5: on a successful acquisition with a client attached, `getTemperature`
returns true and writes to the characteristic exactly once, the value
`r(temperature) ++ ";" ++ r(humidity) ++ ";" ++ r(dewPoint) ++ ";" ++ r(heatIndex)`
with `r = P.render`; that value is then the stored one; it has exactly three
semicolons more than the four rendered fields together; and if `r` never emits a
semicolon, splitting it on semicolons gives back the four rendered fields in
that order. -/
theorem payload_format {α : Type} (P : Platform α) (x : DhtSample α)
    (during : List BleEvent) (s : State)
    (hx : x.status = 0) (hd : s.deviceConnected = true) :
    (getTemperature P x during s).2 = true ∧
    writtenValues (getTemperature P x during s).1.2 =
      [P.render x.temperature ++ ";" ++ P.render x.humidity ++ ";" ++
        P.render (P.computeDewPoint x.temperature x.humidity) ++ ";" ++
        P.render (P.computeHeatIndex x.temperature x.humidity)] ∧
    (getTemperature P x during s).1.1.charValue =
      P.render x.temperature ++ ";" ++ P.render x.humidity ++ ";" ++
        P.render (P.computeDewPoint x.temperature x.humidity) ++ ";" ++
        P.render (P.computeHeatIndex x.temperature x.humidity) ∧
    (getTemperature P x during s).1.1.charValue.data.count ';' =
      3 + ((P.render x.temperature).data.count ';' + (P.render x.humidity).data.count ';' +
        (P.render (P.computeDewPoint x.temperature x.humidity)).data.count ';' +
        (P.render (P.computeHeatIndex x.temperature x.humidity)).data.count ';') ∧
    ((∀ v : α, ';' ∉ (P.render v).data) →
      fieldsOf (getTemperature P x during s).1.1.charValue =
        [P.render x.temperature, P.render x.humidity,
         P.render (P.computeDewPoint x.temperature x.humidity),
         P.render (P.computeHeatIndex x.temperature x.humidity)]) := by
  have hc : (getTemperature P x during s).1.1.charValue = outputOf P x := by
    simp [getTemperature_ok P x during s hx, hd, blinkOnboardLed_eq]
  refine ⟨?_, ?_, ?_, ?_, ?_⟩
  · simp [getTemperature_ok P x during s hx]
  · simp [getTemperature_ok P x during s hx, hd, writtenValues, writtenValues_append,
      writtenValues_callbackLog, outputOf_eq]
  · rw [hc, outputOf_eq]
  · rw [hc]
    simp [outputOf, List.count_cons]
    omega
  · intro hr
    rw [hc, fieldsOf, outputOf_data, List.splitOn_intercalate]
    · rfl
    · intro l hl
      simp only [List.mem_cons, List.mem_singleton, List.not_mem_nil, or_false] at hl
      rcases hl with h | h | h | h <;> rw [h] <;> exact hr _
    · simp

/-- Witness of `payload_format`: a reading of 21 and 40 on the platform of
natural numbers, and a reading on the one-value platform split into fields. -/
theorem payload_format_witness :
    ((⟨21, 40, 0, "OK"⟩ : DhtSample Nat).status = 0 ∧
     attachedAtBoot.deviceConnected = true ∧
     (getTemperature natPlatform ⟨21, 40, 0, "OK"⟩ [] attachedAtBoot).1.1.charValue =
       "21;40;0;61") ∧
    ((∀ v : Unit, ';' ∉ (unitPlatform.render v).data) ∧
     fieldsOf (getTemperature unitPlatform ⟨(), (), 0, "OK"⟩ [] attachedAtBoot).1.1.charValue =
       ["21.50", "21.50", "21.50", "21.50"]) :=
  ⟨⟨rfl, by decide,
    (payload_format natPlatform ⟨21, 40, 0, "OK"⟩ [] attachedAtBoot rfl (by decide)).2.2.1⟩,
   ⟨fun _ => (by decide : ';' ∉ ("21.50" : String).data),
    (payload_format unitPlatform ⟨(), (), 0, "OK"⟩ [] attachedAtBoot rfl
      (by decide)).2.2.2.2 (fun _ => (by decide : ';' ∉ ("21.50" : String).data))⟩⟩

/-- C6 (as amended): on the attach edge, in any execution from reset, the
iteration enables the sensor power line, then waits in `delay(1000)`, then runs
`initTemp`; when it completes `oldDeviceConnected` and `tasksEnabled` are true
and the device is awake.  If the worker task was created, the last effect is the
attachment of `tempTicker` with a 10 s period and callback `triggerGetTemp`, and
the ticker is armed so; if the task could not be created, the failure is logged
and the ticker is not armed. -/
theorem attach_edge {α : Type} (P : Platform α) (senv : SetupEnv) (steps : List (Step α))
    (lenv : LoopEnv)
    (hd : (boot P senv steps).1.deviceConnected = true)
    (ho : (boot P senv steps).1.oldDeviceConnected = false)
    (ha : (boot P senv steps).1.asleep = false) :
    (bleLoop lenv (boot P senv steps).1).2 =
      [.digitalWrite GPIO_SENSOR_ENABLE .HIGH, .delay 1000] ++
        lenv.settleDelay.map callbackLog ++
      [.dhtSetup dhtPin, .serialPrintln "-->[DHT] initiated",
        .xTaskCreatePinnedToCore "tempTask " 4000 5 1] ++
      [if lenv.created.isSome then Effect.tickerAttach 10 .triggerGetTemp
        else Effect.serialPrintln "--->[E] Failed to start task for temperature update"] ∧
    (bleLoop lenv (boot P senv steps).1).1.sensorEnable =
      (enableSensor (boot P senv steps).1).1.sensorEnable ∧
    (bleLoop lenv (boot P senv steps).1).1.oldDeviceConnected = true ∧
    (bleLoop lenv (boot P senv steps).1).1.tasksEnabled = true ∧
    (bleLoop lenv (boot P senv steps).1).1.asleep = false ∧
    (bleLoop lenv (boot P senv steps).1).1.tempTaskHandle = lenv.created ∧
    (bleLoop lenv (boot P senv steps).1).1.tempTicker =
      if lenv.created.isSome then some (10, .triggerGetTemp) else none := by
  have hfresh := boot_fresh P senv steps ha ho
  have hst := bleLoop_attach_state lenv _ hd ho ha
  have hte := boot_tasksEnabled P senv steps
  refine ⟨?_, ?_, hst.1, ?_, hst.2.2.1, ?_, ?_⟩
  · rw [bleLoop_attach_trace lenv _ hd ho ha, hfresh.1]
    simp
  · rw [hst.2.1]
    simp [enableSensor, digitalWrite]
  · rw [hst.2.2.2.1]; exact hte
  · rw [hst.2.2.2.2.2.1, hfresh.1]
    cases lenv.created <;> rfl
  · rw [hst.2.2.2.2.2.2, hfresh.1, hfresh.2]
    simp

/-- Witness of `attach_edge`: a client attaches during bring-up and the worker
task gets handle 1. -/
theorem attach_edge_witness :
    (boot natPlatform ⟨[.connect], []⟩ []).1.deviceConnected = true ∧
    (boot natPlatform ⟨[.connect], []⟩ []).1.oldDeviceConnected = false ∧
    (boot natPlatform ⟨[.connect], []⟩ []).1.asleep = false ∧
    (bleLoop ⟨[], [], some 1⟩ (boot natPlatform ⟨[.connect], []⟩ []).1).1.tempTicker =
      if (some 1 : Option Nat).isSome then some (10, .triggerGetTemp) else none :=
  ⟨by decide, by decide, by decide,
   (attach_edge natPlatform ⟨[.connect], []⟩ [] ⟨[], [], some 1⟩
      (by decide) (by decide) (by decide)).2.2.2.2.2.2⟩

/-- C6 (counterexample): a client attaches during bring-up, the first iteration
processes the attach edge, but the worker task cannot be created: when the
iteration completes the ticker is not armed. -/
theorem attach_without_ticker :
    attachedAtBoot.deviceConnected = true ∧
    attachedAtBoot.oldDeviceConnected = false ∧
    attachedAtBoot.asleep = false ∧
    (bleLoop ⟨[], [], none⟩ attachedAtBoot).1.asleep = false ∧
    (bleLoop ⟨[], [], none⟩ attachedAtBoot).1.tempTicker = none ∧
    Effect.tickerAttach 10 .triggerGetTemp ∉ (bleLoop ⟨[], [], none⟩ attachedAtBoot).2 ∧
    ¬ ((bleLoop ⟨[], [], none⟩ attachedAtBoot).1.tasksEnabled = true ∧
       (bleLoop ⟨[], [], none⟩ attachedAtBoot).1.tempTicker = some (10, .triggerGetTemp)) := by
  decide

/-- C7: if no client is attached at the end of the bring-up delay, `setup` is
its bring-up part followed by exactly one call of `gotToSuspend`: the trace ends
with arming the wake timer for 15,000,000 microseconds and then starting deep
sleep, nothing before that arms the timer or starts deep sleep, and deep sleep
is started exactly once.  The duration is `1000000 * DEEP_SLEEP_DURATION`, which
does not wrap in signed 64-bit arithmetic and is exactly 15 whole seconds.  If a
client is attached, `setup` performs no effect of the sleep sequence and leaves
the device awake. -/
theorem setup_sleep (env : SetupEnv) (s : State) :
    ((setupBringUp env s).1.deviceConnected = false →
      setup env s = (setupBringUp env s).andThen (gotToSuspend env.suspendDelay) ∧
      sleepStarts (setup env s).2 = 1 ∧
      (∃ pre : List Effect,
        (setup env s).2 =
          pre ++ [.esp_sleep_enable_timer_wakeup 15000000, .esp_deep_sleep_start] ∧
        pre.any isWakeTimerArm = false ∧ sleepStarts pre = 0) ∧
      (setup env s).1.wakeTimer = some 15000000 ∧
      (setup env s).1.asleep = true) ∧
    ((setupBringUp env s).1.deviceConnected = true →
      (setup env s).2.any isSleepEffect = false ∧
      sleepStarts (setup env s).2 = 0 ∧
      (setup env s).1.asleep = s.asleep) ∧
    wrapInt64 (1000000 * DEEP_SLEEP_DURATION) = 1000000 * DEEP_SLEEP_DURATION ∧
    sleepMicroseconds = 1000000 * 15 ∧
    sleepMicroseconds = 15000000 := by
  have hn := setupBringUp_no_sleep env s
  refine ⟨?_, ?_, by decide, by decide, by decide⟩
  · intro hd
    have hs : setup env s = (setupBringUp env s).andThen (gotToSuspend env.suspendDelay) := by
      simp [setup, Run.andThen, hd]
    refine ⟨hs, ?_, ?_, ?_⟩
    · rw [hs]
      have h0 := sleepStarts_of_no_sleep _ hn
      have h1 := sleepStarts_gotToSuspend env.suspendDelay (setupBringUp env s).1
      simp only [sleepStarts, Run.andThen, List.count_append] at h0 h1 ⊢
      omega
    · refine ⟨(setupBringUp env s).2 ++
          ([.serialPrintln "-->[ESP] suspending..", .advertisingStop,
            .digitalWrite GPIO_SENSOR_ENABLE .HIGH, .delay 8] ++
            env.suspendDelay.map callbackLog), ?_, ?_, ?_⟩
      · simp [hs, Run.andThen, gotToSuspend_eq, sleepMicroseconds_eq]
      · have h2 := any_arm_of_no_sleep _ hn
        have h3 := any_arm_of_no_sleep _ (any_sleep_callbackLog env.suspendDelay)
        simp [List.any_append, h2, h3, isWakeTimerArm]
      · have h0 := sleepStarts_of_no_sleep _ hn
        have h3 := sleepStarts_of_no_sleep _ (any_sleep_callbackLog env.suspendDelay)
        simp only [sleepStarts, List.count_append] at h0 h3 ⊢
        simp [h0, h3, List.count_cons]
    · simp [hs, Run.andThen, gotToSuspend_eq, sleepMicroseconds_eq]
  · intro hd
    have hs : setup env s = setupBringUp env s := by
      simp [setup, Run.andThen, hd]
    refine ⟨?_, ?_, ?_⟩
    · rw [hs]; exact hn
    · rw [hs]; exact sleepStarts_of_no_sleep _ hn
    · rw [hs]
      simp [setupBringUp, Run.andThen, digitalWrite, bleServerInit, delay, deliver_eq,
        GPIO_LED_GREEN, GPIO_SENSOR_ENABLE]

/-- Witness of `setup_sleep`: nobody attaches during bring-up of a device that
has just been reset. -/
theorem setup_sleep_witness :
    (setupBringUp ⟨[], []⟩ initState).1.deviceConnected = false ∧
    sleepStarts (setup ⟨[], []⟩ initState).2 = 1 ∧
    (setupBringUp ⟨[.connect], []⟩ initState).1.deviceConnected = true ∧
    sleepStarts (setup ⟨[.connect], []⟩ initState).2 = 0 :=
  ⟨by decide, ((setup_sleep ⟨[], []⟩ initState).1 (by decide)).2.1, by decide,
   ((setup_sleep ⟨[.connect], []⟩ initState).2.1 (by decide)).2.1⟩

/-- C8: in one activation of the worker, a characteristic write, a notification
or a write to the indicator LED occurs only if `tasksEnabled` is true and the
acquisition reports status 0.  With `tasksEnabled` false the activation makes no
acquisition: it only suspends the worker and leaves the state unchanged.  With a
non-zero status `getTemperature` returns false, performs only the acquisition
and a log line, and the state is unchanged.  In every case the last effect of
the activation is the worker suspending itself, and the ticker callback resumes
it afterwards exactly as it would have before. -/
theorem worker_gating {α : Type} (P : Platform α) (x : DhtSample α)
    (during : List BleEvent) (s : State) :
    ((tempTaskPass P x during s).2.any isPublishOrPulse = true →
      s.tasksEnabled = true ∧ x.status = 0) ∧
    (s.tasksEnabled = false →
      tempTaskPass P x during s = (s, [.vTaskSuspend]) ∧
      Effect.dhtGetTempAndHumidity ∉ (tempTaskPass P x during s).2) ∧
    (x.status ≠ 0 →
      (getTemperature P x during s).2 = false ∧
      (getTemperature P x during s).1.1 = s ∧
      (getTemperature P x during s).1.2.any isPublishOrPulse = false ∧
      (tempTaskPass P x during s).1 = s ∧
      (tempTaskPass P x during s).2.any isPublishOrPulse = false) ∧
    (tempTaskPass P x during s).2.getLast? = some .vTaskSuspend ∧
    (triggerGetTemp (tempTaskPass P x during s).1).2 = (triggerGetTemp s).2 := by
  have hoff : s.tasksEnabled = false → tempTaskPass P x during s = (s, [.vTaskSuspend]) := by
    intro h
    simp [tempTaskPass, Run.andThen, h]
  have hfault : x.status ≠ 0 →
      tempTaskPass P x during s =
        (s, (if s.tasksEnabled then
          [.dhtGetTempAndHumidity,
           .serialPrintln ("--->[E] DHT22 error status: " ++ x.statusString)]
          else []) ++ [.vTaskSuspend]) := by
    intro h
    cases hte : s.tasksEnabled <;>
      simp [tempTaskPass, Run.andThen, hte, getTemperature_fault P x during s h]
  refine ⟨?_, ?_, ?_, ?_, ?_⟩
  · intro h
    cases hte : s.tasksEnabled
    · rw [hoff hte] at h
      simp [isPublishOrPulse] at h
    · by_cases hx : x.status = 0
      · exact ⟨rfl, hx⟩
      · rw [hfault hx] at h
        simp [hte, isPublishOrPulse] at h
  · intro h
    refine ⟨hoff h, ?_⟩
    rw [hoff h]
    simp
  · intro hx
    refine ⟨?_, ?_, ?_, ?_, ?_⟩
    · rw [getTemperature_fault P x during s hx]
    · rw [getTemperature_fault P x during s hx]
    · rw [getTemperature_fault P x during s hx]
      simp [isPublishOrPulse]
    · rw [hfault hx]
    · rw [hfault hx]
      cases s.tasksEnabled <;> simp [isPublishOrPulse]
  · simp [tempTaskPass, Run.andThen]
  · unfold triggerGetTemp
    rw [(tempTaskPass_frame P x during s).2.2.2.1]
    cases s.tempTaskHandle <;> rfl

/-- Witness of `worker_gating`: the sensor reports status 1 to the worker of an
attached device. -/
theorem worker_gating_witness :
    (⟨0, 0, 1, "TIMEOUT"⟩ : DhtSample Nat).status ≠ 0 ∧
    (getTemperature natPlatform ⟨0, 0, 1, "TIMEOUT"⟩ [] attachedAtBoot).2 = false ∧
    (tempTaskPass natPlatform ⟨21, 40, 0, "OK"⟩ []
      { attachedAtBoot with tasksEnabled := false }).2 = [.vTaskSuspend] :=
  ⟨by decide,
   ((worker_gating natPlatform ⟨0, 0, 1, "TIMEOUT"⟩ [] attachedAtBoot).2.2.1 (by decide)).1,
   congrArg Prod.snd
    ((worker_gating natPlatform ⟨21, 40, 0, "OK"⟩ []
      { attachedAtBoot with tasksEnabled := false }).2.1 rfl).1⟩

/-- C9: on a successful acquisition while `deviceConnected` is false,
`getTemperature` returns true, its trace contains neither `setValue` nor
`notify`, and the value stored in the characteristic is unchanged. -/
theorem publish_noop_when_detached {α : Type} (P : Platform α) (x : DhtSample α)
    (during : List BleEvent) (s : State)
    (hx : x.status = 0) (hd : s.deviceConnected = false) :
    (getTemperature P x during s).2 = true ∧
    (getTemperature P x during s).1.2.any isWireWrite = false ∧
    writtenValues (getTemperature P x during s).1.2 = [] ∧
    (getTemperature P x during s).1.1.charValue = s.charValue := by
  rw [getTemperature_ok P x during s hx]
  simp [hd, blinkOnboardLed_eq, isWireWrite, any_wire_callbackLog, writtenValues,
    writtenValues_append, writtenValues_callbackLog]

/-- Witness of `publish_noop_when_detached`: a good reading on a device that has
just been reset. -/
theorem publish_noop_when_detached_witness :
    (⟨21, 40, 0, "OK"⟩ : DhtSample Nat).status = 0 ∧
    initState.deviceConnected = false ∧
    (getTemperature natPlatform ⟨21, 40, 0, "OK"⟩ [] initState).2 = true ∧
    (getTemperature natPlatform ⟨21, 40, 0, "OK"⟩ [] initState).1.2.any isWireWrite = false :=
  ⟨rfl, rfl,
   (publish_noop_when_detached natPlatform ⟨21, 40, 0, "OK"⟩ [] initState rfl rfl).1,
   (publish_noop_when_detached natPlatform ⟨21, 40, 0, "OK"⟩ [] initState rfl rfl).2.1⟩

/-- C10: in every execution from reset, whatever callbacks, loop iterations,
ticker expiries and worker activations follow `setup`, `initTemp` is entered at
most once, at most one worker task is created and the ticker is attached at most
once.  The ticker callback `triggerGetTemp` leaves the state unchanged and
performs at most one effect, which is the resumption of the worker whose handle
is stored; it performs no effect of the sensor driver or the wireless stack. -/
theorem single_worker {α : Type} (P : Platform α) (env : SetupEnv) (steps : List (Step α)) :
    List.count (.dhtSetup dhtPin) (boot P env steps).2 ≤ 1 ∧
    List.count (.xTaskCreatePinnedToCore "tempTask " 4000 5 1) (boot P env steps).2 ≤ 1 ∧
    List.count (.tickerAttach 10 .triggerGetTemp) (boot P env steps).2 ≤ 1 ∧
    (∀ s : State,
      (triggerGetTemp s).1 = s ∧
      (triggerGetTemp s).2.length ≤ 1 ∧
      (triggerGetTemp s).2.any isAcquisitionOrWireless = false ∧
      (∀ e ∈ (triggerGetTemp s).2,
        ∃ h : Nat, s.tempTaskHandle = some h ∧ e = .xTaskResumeFromISR h)) := by
  have key : ∀ e0 : Effect,
      (e0 = .dhtSetup dhtPin ∨ e0 = .xTaskCreatePinnedToCore "tempTask " 4000 5 1 ∨
        e0 = .tickerAttach 10 .triggerGetTemp) →
      List.count e0 (boot P env steps).2 ≤ 1 := by
    intro e0 he
    have h1 := setup_count e0 he env initState
    have h2 := run_count_le_one e0 he P steps (setup env initState).1
    simp only [boot, Run.andThen, List.count_append]
    omega
  refine ⟨key _ (Or.inl rfl), key _ (Or.inr (Or.inl rfl)), key _ (Or.inr (Or.inr rfl)), ?_⟩
  intro s
  cases hh : s.tempTaskHandle <;> simp [triggerGetTemp, hh, isAcquisitionOrWireless]

/-- Witness of `single_worker`: the client attaches, detaches and attaches again
between two iterations, the ticker fires and the worker runs; `initTemp` has
been entered once. -/
theorem single_worker_witness :
    List.count (.dhtSetup dhtPin)
      (boot natPlatform ⟨[.connect], []⟩
        [.loop ⟨[], [], some 1⟩, .ble .disconnect, .ble .connect, .loop ⟨[], [], some 2⟩,
         .tick, .worker ⟨21, 40, 0, "OK"⟩ [], .loop ⟨[], [], some 3⟩]).2 = 1 ∧
    List.count (.dhtSetup dhtPin)
      (boot natPlatform ⟨[.connect], []⟩
        [.loop ⟨[], [], some 1⟩, .ble .disconnect, .ble .connect, .loop ⟨[], [], some 2⟩,
         .tick, .worker ⟨21, 40, 0, "OK"⟩ [], .loop ⟨[], [], some 3⟩]).2 ≤ 1 :=
  ⟨by decide,
   (single_worker natPlatform ⟨[.connect], []⟩
      [.loop ⟨[], [], some 1⟩, .ble .disconnect, .ble .connect, .loop ⟨[], [], some 2⟩,
       .tick, .worker ⟨21, 40, 0, "OK"⟩ [], .loop ⟨[], [], some 3⟩]).1⟩

end WeatherStation
